import Mathlib

/-!
# Telegram Analyzer front end: the tabs and the API service

A shallow embedding of `frontend/src/components/ExportTab.jsx`,
`frontend/src/services/api.js`, and of the form handling of
`frontend/src/components/SettingsTab.jsx` and
`frontend/src/components/AnalysisTab.jsx`.

* React state (`isExporting`, `taskStatus`), the two timers created by
  `handleExport` and the promises of `getExportStatus` that are still pending
  are fields of `World`; every side effect (`showAlert`, a call of the API
  service, `openLink`) is appended to a log kept in `World`.
* A handler is a function of the values its closure captured at render time
  (`Render`, `Session`) and of the current `World`.
* `await` points split a handler in the part before and the part after the
  promise settles; the outcome of the promise is an argument of the second part.
* The browser decides when timers fire and when responses arrive: a run of a
  poll session is a list of `Event`s, handled one after the other.

JavaScript strings are modelled by `String` (sequences of Unicode scalar
values), identifiers handed out by the backend are strings, and a property that
may be missing (`undefined`) is an `Option`. The Telegram WebApp bridge is taken
to be present (`App.jsx` refuses to start without it), so that every call of
`window.Telegram?.WebApp?.showAlert` shows its alert, and the tab stays mounted
while a session runs.
-/

namespace TelegramAnalyzer

/-! ## JavaScript built-ins used by the source -/

/-- The code points removed by `String.prototype.trim`: ECMAScript `WhiteSpace`
(TAB, VT, FF, ZWNBSP and the Unicode space separators) and `LineTerminator`
(LF, CR, LS, PS). -/
def jsIsWhiteSpace (c : Char) : Bool :=
  let n := c.toNat
  n == 0x09 || n == 0x0A || n == 0x0B || n == 0x0C || n == 0x0D || n == 0x20
    || n == 0xA0 || n == 0x1680 || (0x2000 ≤ n && n ≤ 0x200A)
    || n == 0x2028 || n == 0x2029 || n == 0x202F || n == 0x205F || n == 0x3000
    || n == 0xFEFF

/-- The method `String.prototype.trim`: white space is removed from both ends. -/
def jsTrim (s : String) : String :=
  String.mk ((s.toList.dropWhile jsIsWhiteSpace).reverse.dropWhile jsIsWhiteSpace).reverse

/-- The expression `x || null` for a string `x`: the empty string is falsy. -/
def orNull (x : String) : Option String :=
  if x = "" then none else some x

/-- String concatenation `pre + v` where `v` is a string or `undefined`. -/
def jsConcat (pre : String) (v : Option String) : String :=
  pre ++ v.getD "undefined"

/-- Characters that `encodeURIComponent` leaves as they are: ASCII letters and
digits and the marks `- _ . ! ~ * ' ( )`. -/
def uriUnreserved (c : Char) : Bool :=
  c.isAlphanum || [45, 95, 46, 33, 126, 42, 39, 40, 41].contains c.toNat

/-- One upper-case hexadecimal digit. -/
def hexDigit (n : Nat) : Char :=
  if n < 10 then Char.ofNat (48 + n) else Char.ofNat (55 + n)

/-- The escape `%XY` of one byte. -/
def percentEncodeByte (b : Nat) : List Char :=
  ['%', hexDigit (b / 16), hexDigit (b % 16)]

/-- The function `encodeURIComponent`: every character that is not unreserved
is replaced by the escapes of its UTF-8 bytes. -/
def encodeURIComponent (s : String) : String :=
  String.mk (s.toList.flatMap fun c =>
    if uriUnreserved c then [c]
    else (String.utf8EncodeChar c).flatMap fun b => percentEncodeByte b.toNat)

/-! ## services/api.js -/

/-- The fields of the `ApiService` singleton: `baseURL` and `initData`
(`null` until `setInitData` is called). -/
structure ApiService where
  baseURL : String
  initData : Option String
deriving DecidableEq, Repr

/-- The method `getExportDownloadUrl(taskId)`; `encodeURIComponent(null)` is
the text `null`. -/
def ApiService.getExportDownloadUrl (api : ApiService) (taskId : String) : String :=
  api.baseURL ++ "/export/download/" ++ taskId ++ "?init_data="
    ++ encodeURIComponent (api.initData.getD "null")

/-- A request made through `apiService` by the export tab, with its arguments. -/
inductive ApiCall where
  | startExport (chatIdentifier : String) (dateFrom dateTo : Option String)
  | getExportStatus (taskId : Option String)
deriving DecidableEq, Repr

/-! ## components/ExportTab.jsx: data -/

/-- The task object kept in `taskStatus`: `{ id, status, progress, error }`. -/
structure ExportTask where
  id : Option String
  status : String
  progress : Nat
  error : Option String
deriving DecidableEq, Repr

/-- The object `{ status: 'pending', progress: 0 }` of line 154. -/
def pendingTask : ExportTask :=
  { id := none, status := "pending", progress := 0, error := none }

/-- The calls of `window.Telegram?.WebApp?.showAlert` in `ExportTab.jsx`, one
constructor for each call site, with the value spliced into the message. -/
inductive Alert where
  | enterChatIdentifier
  | configureKeys
  | exportCompleted
  | exportFailed (error : Option String)
  | startFailed (message : Option String)
  | timeoutExceeded
deriving DecidableEq, Repr

/-- The message passed to `showAlert` at each call site. -/
def Alert.text : Alert → String
  | .enterChatIdentifier => "Введите идентификатор чата"
  | .configureKeys => "Настройте Telegram API ключи в разделе \"Настройки\""
  | .exportCompleted => "Экспорт завершен! Нажмите кнопку \"Скачать\" для загрузки файла."
  | .exportFailed error => jsConcat "Ошибка экспорта: " error
  | .startFailed message => jsConcat "Ошибка: " message
  | .timeoutExceeded => "Превышено время ожидания"

/-- The values a render of `ExportTab` hands to the handlers it creates: the
five state variables and `hasConfig` (the truthiness of
`settings?.has_telegram_config`). -/
structure Render where
  chatIdentifier : String
  dateFrom : String
  dateTo : String
  isExporting : Bool
  taskStatus : Option ExportTask
  hasConfig : Bool
deriving DecidableEq, Repr

/-- What the handlers change: the React state they set, the timers, the
requests under way, and the log of their effects. -/
structure World where
  /-- Current value of the state variable `isExporting`. -/
  isExporting : Bool
  /-- Current value of the state variable `taskStatus`. -/
  taskStatus : Option ExportTask
  /-- Alerts shown, oldest first. -/
  alerts : List Alert
  /-- Requests made through `apiService`, oldest first. -/
  apiCalls : List ApiCall
  /-- Whether `pollInterval` has been set and not yet cleared. -/
  intervalActive : Bool
  /-- Whether the 300000 ms timeout has been set and has not yet fired. -/
  deadlinePending : Bool
  /-- Number of `getExportStatus` promises that have not settled. -/
  inFlight : Nat
  /-- Links passed to `openLink`, oldest first. -/
  openedLinks : List String
deriving DecidableEq, Repr

/-- The world seen by a render `r` before any handler has run: the state is the
one rendered, no timer is set and the logs are empty. -/
def World.ofRender (r : Render) : World :=
  { isExporting := r.isExporting, taskStatus := r.taskStatus, alerts := [], apiCalls := [],
    intervalActive := false, deadlinePending := false, inFlight := 0, openedLinks := [] }

/-- The render that follows the state changes recorded in `w`. -/
def Render.update (r : Render) (w : World) : Render :=
  { r with isExporting := w.isExporting, taskStatus := w.taskStatus }

/-- The button that runs `handleExport` has `disabled={isExporting || !hasConfig}`
(line 262): a click reaches the handler only from a render where it is enabled. -/
def Render.buttonEnabled (r : Render) : Bool :=
  !(r.isExporting || !r.hasConfig)

/-- How the promise of `apiService.startExport` settles: with a response object
(whose `task_id` is read) or with an error (whose `message` is read). -/
inductive StartOutcome where
  | resolved (task_id : Option String)
  | rejected (message : Option String)
deriving DecidableEq, Repr

/-- How a promise of `apiService.getExportStatus` settles: with a response
object (whose `task` is read; `none` when the property is missing) or with an
error. -/
inductive PollOutcome where
  | resolved (task : Option ExportTask)
  | rejected
deriving DecidableEq, Repr

/-- What the callbacks of the two timers captured: `taskId` (line 162) and the
`isExporting` of the render whose `handleExport` created them (line 195). -/
structure Session where
  taskId : Option String
  isExporting : Bool
deriving DecidableEq, Repr

/-- The poll interval of line 190, in milliseconds. -/
def pollIntervalMs : Nat := 2000

/-- The deadline of line 199, in milliseconds. -/
def deadlineMs : Nat := 300000

/-! ## components/ExportTab.jsx: handlers -/

/-- The handler `handleExport` up to the `await` of line 156. The flag tells
whether `apiService.startExport` was called (and the handler is suspended). -/
def handleExportBegin (r : Render) (w : World) : World × Bool :=
  if jsTrim r.chatIdentifier = "" then
    ({ w with alerts := w.alerts ++ [Alert.enterChatIdentifier] }, false)
  else if !r.hasConfig then
    ({ w with alerts := w.alerts ++ [Alert.configureKeys] }, false)
  else
    ({ w with
        isExporting := true
        taskStatus := some pendingTask
        apiCalls := w.apiCalls ++
          [ApiCall.startExport r.chatIdentifier (orNull r.dateFrom) (orNull r.dateTo)] }, true)

/-- The handler `handleExport` from the point where the promise of
`startExport` settles: both timers are set (lines 165 and 193), or the `catch`
of line 201 runs. A started poll session is returned with the world. -/
def handleExportResume (r : Render) (w : World) : StartOutcome → World × Option Session
  | .resolved task_id =>
    ({ w with intervalActive := true, deadlinePending := true },
      some { taskId := task_id, isExporting := r.isExporting })
  | .rejected message =>
    ({ w with alerts := w.alerts ++ [Alert.startFailed message], isExporting := false }, none)

/-- The handler `handleExport` (lines 141-206), given how `startExport` settles
if it is called. -/
def handleExport (r : Render) (o : StartOutcome) (w : World) : World × Option Session :=
  match handleExportBegin r w with
  | (w1, true) => handleExportResume r w1 o
  | (w1, false) => (w1, none)

/-- The interval callback up to its `await` (line 167): one more request. -/
def pollCallbackBegin (cl : Session) (w : World) : World :=
  { w with apiCalls := w.apiCalls ++ [ApiCall.getExportStatus cl.taskId], inFlight := w.inFlight + 1 }

/-- The `catch` of the interval callback (lines 185-189). -/
def pollCallbackCatch (w : World) : World :=
  { w with intervalActive := false, isExporting := false }

/-- The interval callback from the point where its request settles (lines
168-189). Reading `task.status` of a missing task throws inside the `try`,
after `setTaskStatus(task)`. -/
def pollCallbackResume (w : World) : PollOutcome → World
  | .rejected => pollCallbackCatch w
  | .resolved none => pollCallbackCatch { w with taskStatus := none }
  | .resolved (some task) =>
    let w1 := { w with taskStatus := some task }
    if task.status = "completed" then
      { w1 with intervalActive := false, isExporting := false,
                alerts := w1.alerts ++ [Alert.exportCompleted] }
    else if task.status = "failed" then
      { w1 with intervalActive := false, isExporting := false,
                alerts := w1.alerts ++ [Alert.exportFailed task.error] }
    else w1

/-- The timeout callback (lines 193-199); `isExporting` is the captured one. -/
def deadlineCallback (cl : Session) (w : World) : World :=
  let w1 := { w with intervalActive := false }
  if cl.isExporting then
    { w1 with isExporting := false, alerts := w1.alerts ++ [Alert.timeoutExceeded] }
  else w1

/-- The handler `handleDownload` (lines 208-213) of render `r`. -/
def handleDownload (api : ApiService) (r : Render) (w : World) : World :=
  match r.taskStatus with
  | some task =>
    match task.id with
    | some id =>
      if id = "" then w
      else { w with openedLinks := w.openedLinks ++ [api.getExportDownloadUrl id] }
    | none => w
  | none => w

/-! ## Poll sessions -/

/-- What can happen during a poll session. -/
inductive Event where
  /-- The interval timer fires. -/
  | intervalFires
  /-- The oldest pending `getExportStatus` promise settles. -/
  | pollSettles (o : PollOutcome)
  /-- The timeout timer fires. -/
  | deadlineFires
deriving DecidableEq, Repr

/-- One event of a session. A cleared interval does not fire, a response arrives
only for a request under way, and the timeout fires once. -/
def step (cl : Session) (w : World) : Event → World
  | .intervalFires => if w.intervalActive then pollCallbackBegin cl w else w
  | .pollSettles o =>
    if 0 < w.inFlight then pollCallbackResume { w with inFlight := w.inFlight - 1 } o else w
  | .deadlineFires =>
    if w.deadlinePending then deadlineCallback cl { w with deadlinePending := false } else w

/-- A sequence of events, handled in order. -/
def run (cl : Session) (w : World) (sched : List Event) : World :=
  sched.foldl (step cl) w

/-- A submission followed by the events of its poll session, if one started. -/
def runSession (r : Render) (o : StartOutcome) (sched : List Event) : World :=
  match handleExport r o (World.ofRender r) with
  | (w, some cl) => run cl w sched
  | (w, none) => w

/-- Whether at most one request is under way after every event of `sched`. -/
def noOverlap (cl : Session) (w : World) : List Event → Bool
  | [] => true
  | e :: es => decide ((step cl w e).inFlight ≤ 1) && noOverlap cl (step cl w e) es

/-- Number of completion and failure alerts among `as`. -/
def pollAlertCount (as : List Alert) : Nat :=
  (as.filter fun a =>
    match a with
    | .exportCompleted => true
    | .exportFailed _ => true
    | _ => false).length

/-- Number of terminal notifications among `as`: completion, failure, timeout. -/
def terminalAlertCount (as : List Alert) : Nat :=
  (as.filter fun a =>
    match a with
    | .exportCompleted => true
    | .exportFailed _ => true
    | .timeoutExceeded => true
    | _ => false).length

/-- Whether an event is a poll response that carries a task with a terminal
status. -/
def Event.isTerminalResponse : Event → Bool
  | .pollSettles (.resolved (some task)) => task.status = "completed" || task.status = "failed"
  | _ => false

/-- Whether at most one request is under way after every event of the session
that the submission starts. -/
def sessionNoOverlap (r : Render) (o : StartOutcome) (sched : List Event) : Bool :=
  match handleExport r o (World.ofRender r) with
  | (w, some cl) => noOverlap cl w sched
  | (_, none) => true

/-- A render from which an export can be submitted: no text in the date fields,
the export button enabled. -/
def exampleRender : Render :=
  { chatIdentifier := "@example_channel", dateFrom := "", dateTo := "", isExporting := false,
    taskStatus := none, hasConfig := true }

/-- A poll response: the task `r123` with the given status and progress. -/
def exampleTask (status : String) (progress : Nat) : ExportTask :=
  { id := some "r123", status := status, progress := progress, error := none }

/-- The render of `exampleRender` with a start date later than the end date. -/
def reversedDatesRender : Render :=
  { exampleRender with dateFrom := "2024-02-01", dateTo := "2024-01-01" }

/-- Whether an event is a poll request that resolves with a response object. -/
def Event.isResponse : Event → Bool
  | .pollSettles (.resolved _) => true
  | _ => false

/-- The cached task status right after each poll response of `sched`. -/
def statusAfterResponses (cl : Session) (w : World) : List Event → List (Option ExportTask)
  | [] => []
  | e :: es =>
    (if e.isResponse then [(step cl w e).taskStatus] else [])
      ++ statusAfterResponses cl (step cl w e) es

/-- The cached task status right after each poll response of the session that
the submission starts. -/
def sessionStatusAfterResponses (r : Render) (o : StartOutcome) (sched : List Event) :
    List (Option ExportTask) :=
  match handleExport r o (World.ofRender r) with
  | (w, some cl) => statusAfterResponses cl w sched
  | (_, none) => []

/-- The scenario of the specification: four ticks, answered in turn `pending`,
`in_progress` at 40, `in_progress` at 90 and `completed`. -/
def scenarioSchedule : List Event :=
  [.intervalFires, .pollSettles (.resolved (some (exampleTask "pending" 0))),
   .intervalFires, .pollSettles (.resolved (some (exampleTask "in_progress" 40))),
   .intervalFires, .pollSettles (.resolved (some (exampleTask "in_progress" 90))),
   .intervalFires, .pollSettles (.resolved (some (exampleTask "completed" 100)))]

/-- The world of an accepted submission made from render `r`. -/
def sessionStart (r : Render) : World :=
  { isExporting := true, taskStatus := some pendingTask, alerts := [],
    apiCalls := [ApiCall.startExport r.chatIdentifier (orNull r.dateFrom) (orNull r.dateTo)],
    intervalActive := true, deadlinePending := true, inFlight := 0, openedLinks := [] }

/-- The invariant of a session whose requests do not overlap: either no
completion or failure alert has been shown, or exactly one has, the interval is
cleared and no request is under way. -/
def Settled (w : World) : Prop :=
  pollAlertCount w.alerts = 0 ∨
    (pollAlertCount w.alerts = 1 ∧ w.intervalActive = false ∧ w.inFlight = 0)

/-- The handlers that the export tab attaches to its buttons: `handleExport`
(with the way `startExport` settles if it is called) and `handleDownload`. The
other handlers of the tab are the `onChange` of the three inputs, which set
`chatIdentifier`, `dateFrom` and `dateTo` only. -/
inductive Handler where
  | handleExport (o : StartOutcome)
  | handleDownload
deriving DecidableEq, Repr

/-- The world after a handler of render `r` has run. -/
def applyHandler (api : ApiService) (r : Render) (w : World) : Handler → World
  | Handler.handleExport o => (handleExport r o w).1
  | Handler.handleDownload => handleDownload api r w

/-- The schedule in which every tick is answered before the next one: the
interval fires, its request settles with the next outcome of `os`. -/
def sequentialSchedule (os : List PollOutcome) : List Event :=
  os.flatMap fun o => [Event.intervalFires, Event.pollSettles o]

/-- A poll session that is running: the first poll has answered `in_progress`
and the second request is under way. -/
def runningWorld : World :=
  runSession exampleRender (.resolved (some "r123"))
    [.intervalFires, .pollSettles (.resolved (some (exampleTask "in_progress" 40))),
     .intervalFires]

/-! ## services/api.js: the request interceptor -/

/-- The property `k` of a plain object, given as its list of properties. -/
def objGet {α : Type} : List (String × α) → String → Option α
  | [], _ => none
  | (k1, v1) :: rest, k => if k1 = k then some v1 else objGet rest k

/-- The object `{ ...o, k: v }`: the properties of `o`, with `k` set to `v`. -/
def objSet {α : Type} : List (String × α) → String → α → List (String × α)
  | [], k, v => [(k, v)]
  | (k1, v1) :: rest, k, v => if k1 = k then (k, v) :: rest else (k1, v1) :: objSet rest k v

/-- The part of an axios request config that the service uses: method, URL, the
body `data` (a plain object, `none` when the request has no body) and the query
`params`. A property value is a string or `null`. -/
structure RequestConfig where
  method : String
  url : String
  data : Option (List (String × Option String))
  params : List (String × Option String)
deriving DecidableEq, Repr

/-- The method `setInitData(initData)`. -/
def ApiService.setInitData (api : ApiService) (initData : String) : ApiService :=
  { api with initData := some initData }

/-- The request interceptor of lines 19-27: `data` gets the property `init_data`
when both `this.initData` and `config.data` are truthy (a non-empty token, a
body that is there). -/
def ApiService.interceptor (api : ApiService) (config : RequestConfig) : RequestConfig :=
  match api.initData, config.data with
  | some token, some body =>
    if token = "" then config
    else { config with data := some (objSet body "init_data" (some token)) }
  | _, _ => config

/-- The config that `startExport` hands to axios (lines 72-77). -/
def ApiService.startExportConfig (api : ApiService) (chatIdentifier : String)
    (dateFrom dateTo : Option String) : RequestConfig :=
  { method := "post", url := "/export/start",
    data := some [("init_data", api.initData), ("chat_identifier", some chatIdentifier),
                  ("date_from", dateFrom), ("date_to", dateTo)],
    params := [] }

/-- The config that `getExportStatus` hands to axios (lines 85-89): a GET
request, the token in the query. -/
def ApiService.getExportStatusConfig (api : ApiService) (taskId : Option String) :
    RequestConfig :=
  { method := "get", url := jsConcat "/export/status/" taskId, data := none,
    params := [("init_data", api.initData)] }

/-- Whether the body of a config has the property `init_data` with value `token`. -/
def RequestConfig.dataHasInitData (config : RequestConfig) (token : String) : Bool :=
  match config.data with
  | some body => objGet body "init_data" == some (some token)
  | none => false

/-! ## components/SettingsTab.jsx -/

/-- The `settings` object handed to the settings tab. The tab reads
`telegram_api_id`, `telegram_phone` and the two flags; `others` stands for every
other property that the backend may send with it. -/
structure Settings where
  telegram_api_id : Option String
  telegram_phone : Option String
  has_telegram_config : Bool
  has_claude_config : Bool
  others : List (String × Option String)
deriving DecidableEq, Repr

/-- The state variables of `SettingsTab` (lines 134-138). -/
structure SettingsForm where
  telegramApiId : String
  telegramApiHash : String
  telegramPhone : String
  claudeApiKey : String
  isSaving : Bool
deriving DecidableEq, Repr

/-- The state of a freshly mounted `SettingsTab`. -/
def SettingsForm.initial : SettingsForm :=
  { telegramApiId := "", telegramApiHash := "", telegramPhone := "", claudeApiKey := "",
    isSaving := false }

/-- The effect of lines 140-147, run when `settings` changes; `x || ''` is `x`
unless `x` is missing or empty. -/
def settingsEffect (settings : Option Settings) (f : SettingsForm) : SettingsForm :=
  match settings with
  | some s =>
    { f with
        telegramApiId := s.telegram_api_id.getD ""
        telegramApiHash := ""
        telegramPhone := s.telegram_phone.getD ""
        claudeApiKey := "" }
  | none => f

/-- The object `updatedSettings` built by `handleSave` (lines 152-158): a
property for every field that is not empty. -/
def updatedSettings (f : SettingsForm) : List (String × String) :=
  (if f.telegramApiId = "" then [] else [("telegram_api_id", f.telegramApiId)])
    ++ (if f.telegramApiHash = "" then [] else [("telegram_api_hash", f.telegramApiHash)])
    ++ (if f.telegramPhone = "" then [] else [("telegram_phone", f.telegramPhone)])
    ++ (if f.claudeApiKey = "" then [] else [("claude_api_key", f.claudeApiKey)])

/-- The handler `handleSave` (lines 149-165): the argument it passes to
`onUpdate`, and the state once the promise of `onUpdate` has settled. -/
def handleSave (f : SettingsForm) : List (String × String) × SettingsForm :=
  (updatedSettings f, { f with isSaving := false })

/-- Settings as loaded for a user who has configured the Telegram keys. -/
def exampleSettings : Settings :=
  { telegram_api_id := some "1234567", telegram_phone := some "+79991234567",
    has_telegram_config := true, has_claude_config := true,
    others := [("telegram_api_hash", some "gAAAAABl"), ("claude_api_key", some "gAAAAABm")] }

/-! ## components/AnalysisTab.jsx -/

/-- The method `String.prototype.endsWith`. -/
def jsEndsWith (s suffix : String) : Bool :=
  suffix.toList.isSuffixOf s.toList

/-- The properties of a `File` that the analysis tab reads. -/
structure File where
  name : String
  size : Nat
deriving DecidableEq, Repr

/-- The object kept in `analysisResult`. -/
structure AnalysisResult where
  success : Bool
  message : Option String
  filename : Option String
deriving DecidableEq, Repr

/-- What `handleFileSelect` can change: the state variables `selectedFile` and
`analysisResult`, and the messages passed to `showAlert`. -/
structure AnalysisWorld where
  selectedFile : Option File
  analysisResult : Option AnalysisResult
  alerts : List String
deriving DecidableEq, Repr

/-- The handler `handleFileSelect` (lines 160-167); `file` is `none` when no
file came with the event. -/
def handleFileSelect (file : Option File) (w : AnalysisWorld) : AnalysisWorld :=
  match file with
  | some f =>
    if jsEndsWith f.name ".csv" then { w with selectedFile := some f, analysisResult := none }
    else { w with alerts := w.alerts ++ ["Пожалуйста, выберите CSV файл"] }
  | none => { w with alerts := w.alerts ++ ["Пожалуйста, выберите CSV файл"] }

/-- The integer `m` for which `m / 10` is nearest to `num / den`, the larger one
of two that are equally near: the digits that `toFixed(1)` prints. -/
def tenths (num den : Nat) : Nat :=
  (20 * num + den) / (2 * den)

/-- The text of `(num / den).toFixed(1)`. For a byte count below `2 ^ 53` and a
power of two `den` the quotient is computed without rounding, so that the text
is that of the exact quotient. -/
def toFixed1 (num den : Nat) : String :=
  toString (tenths num den / 10) ++ "." ++ toString (tenths num den % 10)

/-- The function `formatFileSize` (lines 236-240); `bytes` is the size of a
file, an integer below `2 ^ 53`. -/
def formatFileSize (bytes : Nat) : String :=
  if bytes < 1024 then toString bytes ++ " B"
  else if bytes < 1024 * 1024 then toFixed1 bytes 1024 ++ " KB"
  else toFixed1 bytes (1024 * 1024) ++ " MB"

/-! ## Basic facts about sessions -/

theorem run_nil (cl : Session) (w : World) : run cl w [] = w := rfl

theorem run_cons (cl : Session) (w : World) (e : Event) (es : List Event) :
    run cl w (e :: es) = run cl (step cl w e) es := rfl

theorem run_append (cl : Session) (w : World) (es fs : List Event) :
    run cl w (es ++ fs) = run cl (run cl w es) fs := by
  simp [run, List.foldl_append]

/-- A submission that passes both checks and is accepted starts a session. -/
theorem handleExport_accepted (r : Render) (tid : Option String) (w : World)
    (hchat : jsTrim r.chatIdentifier ≠ "") (hcfg : r.hasConfig = true) :
    handleExport r (.resolved tid) w =
      ({ w with
          isExporting := true
          taskStatus := some pendingTask
          apiCalls := w.apiCalls ++
            [ApiCall.startExport r.chatIdentifier (orNull r.dateFrom) (orNull r.dateTo)]
          intervalActive := true
          deadlinePending := true },
        some { taskId := tid, isExporting := r.isExporting }) := by
  simp [handleExport, handleExportBegin, handleExportResume, hchat, hcfg]

theorem runSession_accepted (r : Render) (tid : Option String) (sched : List Event)
    (hchat : jsTrim r.chatIdentifier ≠ "") (hcfg : r.hasConfig = true) :
    runSession r (.resolved tid) sched =
      run { taskId := tid, isExporting := r.isExporting } (sessionStart r) sched := by
  simp [runSession, handleExport_accepted r tid _ hchat hcfg, sessionStart, World.ofRender]

/-- Once the interval is cleared it stays cleared and no request is made. -/
theorem run_of_cleared (cl : Session) (sched : List Event) (w : World)
    (h : w.intervalActive = false) :
    (run cl w sched).intervalActive = false ∧ (run cl w sched).apiCalls = w.apiCalls := by
  induction sched generalizing w with
  | nil => exact ⟨h, rfl⟩
  | cons e es ih =>
    have hs : (step cl w e).intervalActive = false ∧ (step cl w e).apiCalls = w.apiCalls := by
      cases e with
      | intervalFires => simp [step, h]
      | deadlineFires =>
        simp only [step, deadlineCallback]
        split <;> [split; skip] <;> simp [h]
      | pollSettles o =>
        simp only [step]
        split
        · rcases o with (_ | task) | _
          · simp [pollCallbackResume, pollCallbackCatch]
          · simp only [pollCallbackResume]
            split <;> [skip; split] <;> simp [h]
          · simp [pollCallbackResume, pollCallbackCatch]
        · simp [h]
    rw [run_cons]
    obtain ⟨h1, h2⟩ := ih (step cl w e) hs.1
    exact ⟨h1, h2.trans hs.2⟩

theorem pollAlertCount_snoc (as : List Alert) (a : Alert) :
    pollAlertCount (as ++ [a]) =
      pollAlertCount as + (match a with
        | .exportCompleted => 1
        | .exportFailed _ => 1
        | _ => 0) := by
  cases a <;> simp [pollAlertCount, List.filter_append]

/-- An event that is not a terminal poll response adds no completion or failure
alert. -/
theorem step_pollAlertCount_of_not_terminal (cl : Session) (w : World) (e : Event)
    (he : e.isTerminalResponse = false) :
    pollAlertCount (step cl w e).alerts = pollAlertCount w.alerts := by
  cases e with
  | intervalFires => simp only [step, pollCallbackBegin]; split <;> rfl
  | deadlineFires =>
    simp only [step, deadlineCallback]
    split <;> [split; skip] <;> simp [pollAlertCount_snoc]
  | pollSettles o =>
    simp only [step]
    split
    · rcases o with (_ | task) | _
      · simp [pollCallbackResume, pollCallbackCatch]
      · simp only [Event.isTerminalResponse, Bool.or_eq_false_iff, decide_eq_false_iff_not] at he
        simp [pollCallbackResume, he.1, he.2]
      · simp [pollCallbackResume, pollCallbackCatch]
    · rfl

/-- No event removes an alert: the count of completion and failure alerts never
decreases. -/
theorem step_pollAlertCount_mono (cl : Session) (w : World) (e : Event) :
    pollAlertCount w.alerts ≤ pollAlertCount (step cl w e).alerts := by
  cases e with
  | intervalFires => simp only [step, pollCallbackBegin]; split <;> simp
  | deadlineFires =>
    simp only [step, deadlineCallback]
    split <;> [split; skip] <;> simp [pollAlertCount_snoc]
  | pollSettles o =>
    simp only [step]
    split
    · rcases o with (_ | task) | _
      · simp [pollCallbackResume, pollCallbackCatch]
      · simp only [pollCallbackResume]
        split <;> [skip; split] <;> simp [pollAlertCount_snoc]
      · simp [pollCallbackResume, pollCallbackCatch]
    · simp

theorem run_pollAlertCount_mono (cl : Session) (sched : List Event) (w : World) :
    pollAlertCount w.alerts ≤ pollAlertCount (run cl w sched).alerts := by
  induction sched generalizing w with
  | nil => simp [run_nil]
  | cons e es ih => exact (step_pollAlertCount_mono cl w e).trans (ih _)

theorem step_settled (cl : Session) (w : World) (e : Event) (hw : Settled w)
    (hin : w.inFlight ≤ 1) : Settled (step cl w e) := by
  cases e with
  | intervalFires =>
    rcases hw with h0 | ⟨h1, h2, h3⟩
    · left; simp only [step, pollCallbackBegin]; split <;> simpa using h0
    · right; simp [step, h2, h1, h3]
  | deadlineFires =>
    rcases hw with h0 | ⟨h1, h2, h3⟩
    · left
      simp only [step, deadlineCallback]
      split <;> [split; skip] <;> simp [pollAlertCount_snoc, h0]
    · right
      simp only [step, deadlineCallback]
      split <;> [split; skip] <;> simp [pollAlertCount_snoc, h1, h2, h3]
  | pollSettles o =>
    rcases hw with h0 | ⟨h1, h2, h3⟩
    · simp only [step]
      split
      · have hz : w.inFlight - 1 = 0 := by omega
        rcases o with (_ | task) | _
        · left; simpa [pollCallbackResume, pollCallbackCatch] using h0
        · simp only [pollCallbackResume]
          split <;> [skip; split]
          · right; simp [pollAlertCount_snoc, h0, hz]
          · right; simp [pollAlertCount_snoc, h0, hz]
          · left; simpa using h0
        · left; simpa [pollCallbackResume, pollCallbackCatch] using h0
      · left; exact h0
    · right; simp [step, h1, h2, h3]

theorem run_settled (cl : Session) (sched : List Event) (w : World) (hw : Settled w)
    (hin : w.inFlight ≤ 1) (hno : noOverlap cl w sched = true) :
    Settled (run cl w sched) ∧ (run cl w sched).inFlight ≤ 1 := by
  induction sched generalizing w with
  | nil => exact ⟨hw, hin⟩
  | cons e es ih =>
    simp only [noOverlap, Bool.and_eq_true, decide_eq_true_eq] at hno
    exact ih (step cl w e) (step_settled cl w e hw hin) hno.1 hno.2

/-- A terminal poll response that is handled while no completion or failure
alert has been shown yet adds exactly one. -/
theorem step_terminal_pollAlertCount (cl : Session) (w : World) (e : Event)
    (he : e.isTerminalResponse = true) (hin : 0 < w.inFlight) :
    pollAlertCount (step cl w e).alerts = pollAlertCount w.alerts + 1 := by
  cases e with
  | intervalFires => simp [Event.isTerminalResponse] at he
  | deadlineFires => simp [Event.isTerminalResponse] at he
  | pollSettles o =>
    rcases o with (_ | task) | _
    · simp [Event.isTerminalResponse] at he
    · simp only [Event.isTerminalResponse, Bool.or_eq_true, decide_eq_true_eq] at he
      simp only [step, hin, if_true, pollCallbackResume]
      split <;> [skip; split]
      · simp [pollAlertCount_snoc]
      · simp [pollAlertCount_snoc]
      · rcases he with he | he <;> contradiction
    · simp [Event.isTerminalResponse] at he

theorem sessionNoOverlap_accepted (r : Render) (tid : Option String) (sched : List Event)
    (hchat : jsTrim r.chatIdentifier ≠ "") (hcfg : r.hasConfig = true) :
    sessionNoOverlap r (.resolved tid) sched =
      noOverlap { taskId := tid, isExporting := r.isExporting } (sessionStart r) sched := by
  simp [sessionNoOverlap, handleExport_accepted r tid _ hchat hcfg, sessionStart, World.ofRender]

theorem run_pollAlertCount_of_not_terminal (cl : Session) (sched : List Event) (w : World)
    (h : ∀ e ∈ sched, e.isTerminalResponse = false) :
    pollAlertCount (run cl w sched).alerts = pollAlertCount w.alerts := by
  induction sched generalizing w with
  | nil => rfl
  | cons e es ih =>
    rw [run_cons, ih _ (fun x hx => h x (List.mem_cons_of_mem _ hx)),
      step_pollAlertCount_of_not_terminal cl w e (h e (List.mem_cons_self _ _))]

/-- With the captured `isExporting` false, an event that is not a terminal poll
response shows no alert. -/
theorem step_alerts_of_not_terminal (cl : Session) (w : World) (e : Event)
    (hcl : cl.isExporting = false) (he : e.isTerminalResponse = false) :
    (step cl w e).alerts = w.alerts := by
  cases e with
  | intervalFires => simp only [step, pollCallbackBegin]; split <;> rfl
  | deadlineFires => simp only [step, deadlineCallback, hcl]; split <;> simp
  | pollSettles o =>
    simp only [step]
    split
    · rcases o with (_ | task) | _
      · simp [pollCallbackResume, pollCallbackCatch]
      · simp only [Event.isTerminalResponse, Bool.or_eq_false_iff, decide_eq_false_iff_not] at he
        simp [pollCallbackResume, he.1, he.2]
      · simp [pollCallbackResume, pollCallbackCatch]
    · rfl

theorem run_alerts_of_not_terminal (cl : Session) (sched : List Event) (w : World)
    (hcl : cl.isExporting = false) (h : ∀ e ∈ sched, e.isTerminalResponse = false) :
    (run cl w sched).alerts = w.alerts := by
  induction sched generalizing w with
  | nil => rfl
  | cons e es ih =>
    rw [run_cons, ih _ (fun x hx => h x (List.mem_cons_of_mem _ hx)),
      step_alerts_of_not_terminal cl w e hcl (h e (List.mem_cons_self _ _))]

/-- With the captured `isExporting` false, no event shows the timeout alert. -/
theorem run_no_timeout (cl : Session) (sched : List Event) (w : World)
    (hcl : cl.isExporting = false) (hw : Alert.timeoutExceeded ∉ w.alerts) :
    Alert.timeoutExceeded ∉ (run cl w sched).alerts := by
  induction sched generalizing w with
  | nil => exact hw
  | cons e es ih =>
    rw [run_cons]
    apply ih
    cases e with
    | intervalFires => simp only [step, pollCallbackBegin]; split <;> exact hw
    | deadlineFires => simp only [step, deadlineCallback, hcl]; split <;> simpa using hw
    | pollSettles o =>
      simp only [step]
      split
      · rcases o with (_ | task) | _
        · simpa [pollCallbackResume, pollCallbackCatch] using hw
        · simp only [pollCallbackResume]
          split <;> [skip; split] <;> simpa using hw
        · simpa [pollCallbackResume, pollCallbackCatch] using hw
      · exact hw

theorem buttonEnabled_iff (r : Render) :
    r.buttonEnabled = true ↔ r.isExporting = false ∧ r.hasConfig = true := by
  cases hi : r.isExporting <;> cases hc : r.hasConfig <;> simp [Render.buttonEnabled, hi, hc]

theorem count_exportCompleted_le (as : List Alert) :
    as.count Alert.exportCompleted ≤ pollAlertCount as := by
  induction as with
  | nil => simp [pollAlertCount]
  | cons a as ih =>
    cases a <;> simp [pollAlertCount, List.filter_cons, List.count_cons] at ih ⊢ <;> omega

/-- With the interval cleared and no request under way, an event changes neither
the cached task status nor the requests made, and shows no completion alert. -/
theorem step_of_idle (cl : Session) (w : World) (e : Event)
    (hint : w.intervalActive = false) (hin : w.inFlight = 0) :
    (step cl w e).intervalActive = false ∧ (step cl w e).inFlight = 0 ∧
    (step cl w e).taskStatus = w.taskStatus ∧
    (step cl w e).alerts.count Alert.exportCompleted = w.alerts.count Alert.exportCompleted := by
  cases e with
  | intervalFires => simp [step, hint, hin]
  | deadlineFires =>
    simp only [step, deadlineCallback]
    split <;> [split; skip] <;> simp [hint, hin, List.count_append]
  | pollSettles o => simp [step, hint, hin]

theorem run_of_idle (cl : Session) (sched : List Event) (w : World)
    (hint : w.intervalActive = false) (hin : w.inFlight = 0) :
    (run cl w sched).taskStatus = w.taskStatus ∧
    (run cl w sched).alerts.count Alert.exportCompleted = w.alerts.count Alert.exportCompleted := by
  induction sched generalizing w with
  | nil => exact ⟨rfl, rfl⟩
  | cons e es ih =>
    obtain ⟨h1, h2, h3, h4⟩ := step_of_idle cl w e hint hin
    obtain ⟨h5, h6⟩ := ih (step cl w e) h1 h2
    rw [run_cons]
    exact ⟨h5.trans h3, h6.trans h4⟩

theorem run_inFlight_le_of_noOverlap (cl : Session) (sched : List Event) (w : World)
    (hin : w.inFlight ≤ 1) (hno : noOverlap cl w sched = true) :
    (run cl w sched).inFlight ≤ 1 := by
  induction sched generalizing w with
  | nil => exact hin
  | cons e es ih =>
    simp only [noOverlap, Bool.and_eq_true, decide_eq_true_eq] at hno
    exact ih (step cl w e) hno.1 hno.2

/-- What handling a `completed` response does to the world. -/
theorem step_completed (cl : Session) (w : World) (task : ExportTask)
    (hin : 0 < w.inFlight) (hst : task.status = "completed") :
    step cl w (.pollSettles (.resolved (some task))) =
      { w with inFlight := w.inFlight - 1, taskStatus := some task, intervalActive := false,
               isExporting := false, alerts := w.alerts ++ [Alert.exportCompleted] } := by
  simp [step, hin, pollCallbackResume, hst]

/-- What handling a `failed` response does to the world. -/
theorem step_failed (cl : Session) (w : World) (task : ExportTask)
    (hin : 0 < w.inFlight) (hst : task.status = "failed") :
    step cl w (.pollSettles (.resolved (some task))) =
      { w with inFlight := w.inFlight - 1, taskStatus := some task, intervalActive := false,
               isExporting := false, alerts := w.alerts ++ [Alert.exportFailed task.error] } := by
  simp [step, hin, pollCallbackResume, hst]

/-- A string made of white space only is trimmed to the empty string. -/
theorem jsTrim_of_all_whiteSpace (s : String)
    (h : ∀ c ∈ s.toList, jsIsWhiteSpace c = true) : jsTrim s = "" := by
  have hd : s.toList.dropWhile jsIsWhiteSpace = [] := by
    rw [List.dropWhile_eq_nil_iff]
    exact h
  unfold jsTrim
  rw [hd]
  rfl

/-- Only a poll response changes the cached task status. -/
theorem step_taskStatus_of_not_response (cl : Session) (w : World) (e : Event)
    (he : e.isResponse = false) : (step cl w e).taskStatus = w.taskStatus := by
  cases e with
  | intervalFires => simp only [step, pollCallbackBegin]; split <;> rfl
  | deadlineFires => simp only [step, deadlineCallback]; split <;> [split; skip] <;> rfl
  | pollSettles o =>
    cases o with
    | resolved t => simp [Event.isResponse] at he
    | rejected => simp only [step, pollCallbackResume, pollCallbackCatch]; split <;> rfl

theorem run_taskStatus_of_not_response (cl : Session) (sched : List Event) (w : World)
    (h : ∀ e ∈ sched, e.isResponse = false) : (run cl w sched).taskStatus = w.taskStatus := by
  induction sched generalizing w with
  | nil => rfl
  | cons e es ih =>
    rw [run_cons, ih _ (fun x hx => h x (List.mem_cons_of_mem _ hx)),
      step_taskStatus_of_not_response cl w e (h e (List.mem_cons_self _ _))]

/-- A response that carries a task makes that task the cached task status. -/
theorem step_taskStatus_of_response (cl : Session) (w : World) (task : ExportTask)
    (hin : 0 < w.inFlight) :
    (step cl w (.pollSettles (.resolved (some task)))).taskStatus = some task := by
  simp only [step, hin, if_true, pollCallbackResume]
  split <;> [skip; split] <;> rfl

/-- While the interval is set, `n` ticks in a row make `n` requests, and the
interval stays set. -/
theorem run_ticks (cl : Session) (n : Nat) (w : World) (h : w.intervalActive = true) :
    (run cl w (List.replicate n .intervalFires)).inFlight = w.inFlight + n ∧
    (run cl w (List.replicate n .intervalFires)).apiCalls =
      w.apiCalls ++ List.replicate n (ApiCall.getExportStatus cl.taskId) ∧
    (run cl w (List.replicate n .intervalFires)).intervalActive = true := by
  induction n generalizing w with
  | zero => simp [run_nil, h]
  | succ n ih =>
    have hs : step cl w .intervalFires = pollCallbackBegin cl w := by simp [step, h]
    rw [List.replicate_succ, run_cons, hs]
    obtain ⟨h1, h2, h3⟩ := ih (pollCallbackBegin cl w) h
    rw [h1, h2, h3]
    simp [pollCallbackBegin, List.replicate_succ]
    omega

/-- Once the interval is cleared, its ticks change nothing. -/
theorem run_ticks_of_cleared (cl : Session) (n : Nat) (w : World)
    (h : w.intervalActive = false) : run cl w (List.replicate n .intervalFires) = w := by
  induction n with
  | zero => rfl
  | succ n ih =>
    have hs : step cl w .intervalFires = w := by simp [step, h]
    rw [List.replicate_succ, run_cons, hs, ih]

/-- The part of the interval callback after the `await` leaves the number of
requests under way as it is. -/
theorem pollCallbackResume_inFlight (w : World) (o : PollOutcome) :
    (pollCallbackResume w o).inFlight = w.inFlight := by
  rcases o with (_ | task) | _
  · rfl
  · simp only [pollCallbackResume]
    split <;> [skip; split] <;> rfl
  · rfl

/-- A tick and its answer, starting with no request under way, end with no
request under way and never have more than one. -/
theorem noOverlap_sequential (cl : Session) (os : List PollOutcome) (w : World)
    (h : w.inFlight = 0) : noOverlap cl w (sequentialSchedule os) = true := by
  induction os generalizing w with
  | nil => rfl
  | cons o os ih =>
    have hcons : sequentialSchedule (o :: os) =
        Event.intervalFires :: Event.pollSettles o :: sequentialSchedule os := by
      simp [sequentialSchedule]
    rw [hcons]
    cases hint : w.intervalActive
    · have h1 : step cl w .intervalFires = w := by simp [step, hint]
      have h2 : step cl w (.pollSettles o) = w := by simp [step, h]
      simp only [noOverlap, h1, h2, h, Bool.and_eq_true, decide_eq_true_eq]
      exact ⟨by omega, by omega, ih w h⟩
    · have h1 : step cl w .intervalFires = pollCallbackBegin cl w := by simp [step, hint]
      have h3 : (pollCallbackBegin cl w).inFlight = 1 := by simp [pollCallbackBegin, h]
      have h2 : (step cl (pollCallbackBegin cl w) (.pollSettles o)).inFlight = 0 := by
        simp [step, h3, pollCallbackResume_inFlight]
      simp only [noOverlap, h1, h2, h3, Bool.and_eq_true, decide_eq_true_eq]
      exact ⟨by omega, by omega, ih _ h2⟩

theorem objGet_objSet_self {α : Type} (o : List (String × α)) (k : String) (v : α) :
    objGet (objSet o k v) k = some v := by
  induction o with
  | nil => simp [objSet, objGet]
  | cons p rest ih =>
    obtain ⟨k1, v1⟩ := p
    by_cases h : k1 = k
    · simp [objSet, objGet, h]
    · simp [objSet, objGet, h, ih]

theorem objGet_objSet_ne {α : Type} (o : List (String × α)) (k k2 : String) (v : α)
    (hne : k ≠ k2) : objGet (objSet o k v) k2 = objGet o k2 := by
  induction o with
  | nil => simp [objSet, objGet, hne]
  | cons p rest ih =>
    obtain ⟨k1, v1⟩ := p
    by_cases h : k1 = k
    · subst h
      simp [objSet, objGet, hne]
    · simp [objSet, objGet, h, ih]

theorem jsEndsWith_append_B (x : String) :
    jsEndsWith (x ++ " B") " KB" = false ∧ jsEndsWith (x ++ " B") " MB" = false := by
  simp [jsEndsWith, List.isSuffixOf, String.toList, String.data_append, List.isPrefixOf]

theorem jsEndsWith_append_KB (x : String) :
    jsEndsWith (x ++ " KB") " KB" = true ∧ jsEndsWith (x ++ " KB") " MB" = false := by
  simp [jsEndsWith, List.isSuffixOf, String.toList, String.data_append, List.isPrefixOf]

theorem jsEndsWith_append_MB (x : String) :
    jsEndsWith (x ++ " MB") " MB" = true ∧ jsEndsWith (x ++ " MB") " KB" = false := by
  simp [jsEndsWith, List.isSuffixOf, String.toList, String.data_append, List.isPrefixOf]

/-- A text that ends in `KB` or `MB` is not a text followed by a blank and `B`. -/
theorem append_unit_ne_append_B (x y : String) :
    x ++ " KB" ≠ y ++ " B" ∧ x ++ " MB" ≠ y ++ " B" := by
  constructor <;> intro h <;>
  · have := congrArg (fun s => s.data.reverse) h
    simp [String.data_append] at this

theorem formatFileSize_cases (n : Nat) :
    (n < 1024 → formatFileSize n = toString n ++ " B") ∧
    (1024 ≤ n → n < 1048576 → formatFileSize n = toFixed1 n 1024 ++ " KB") ∧
    (1048576 ≤ n → formatFileSize n = toFixed1 n (1024 * 1024) ++ " MB") := by
  refine ⟨fun h => ?_, fun h1 h2 => ?_, fun h => ?_⟩
  · simp [formatFileSize, h]
  · have h3 : ¬ n < 1024 := by omega
    simp [formatFileSize, h3, h2]
  · have h3 : ¬ n < 1024 := by omega
    have h4 : ¬ n < 1048576 := by omega
    simp [formatFileSize, h3, h4]

/-! ## C1: terminal notifications -/

/-- C1, counterexample. From the enabled export button, an accepted submission
whose first poll request is rejected delivers no terminal notification at all,
also after the deadline has fired; and when two poll requests are under way at
once and both answer `completed`, two completion alerts are delivered. -/
theorem terminal_notification_not_exactly_once :
    exampleRender.buttonEnabled = true ∧
    terminalAlertCount (runSession exampleRender (.resolved (some "r123"))
      [.intervalFires, .pollSettles .rejected, .deadlineFires]).alerts = 0 ∧
    terminalAlertCount (runSession exampleRender (.resolved (some "r123"))
      [.intervalFires, .intervalFires,
       .pollSettles (.resolved (some (exampleTask "completed" 100))),
       .pollSettles (.resolved (some (exampleTask "completed" 100))),
       .deadlineFires]).alerts = 2 := by
  decide

/-- C1, amended. For an accepted submission whose poll requests never overlap,
at most one completion-or-failure notification is delivered over the whole
session, whatever the poll outcomes and whenever the deadline fires: none if no
poll response with status `completed` or `failed` occurs, and exactly one as
soon as such a response is handled. -/
theorem poll_notification_at_most_once (r : Render) (tid : Option String) (sched : List Event)
    (hchat : jsTrim r.chatIdentifier ≠ "") (hcfg : r.hasConfig = true)
    (hno : sessionNoOverlap r (.resolved tid) sched = true) :
    pollAlertCount (runSession r (.resolved tid) sched).alerts ≤ 1 ∧
    ((∀ e ∈ sched, e.isTerminalResponse = false) →
      pollAlertCount (runSession r (.resolved tid) sched).alerts = 0) ∧
    (∀ pre e post, sched = pre ++ e :: post → e.isTerminalResponse = true →
      0 < (runSession r (.resolved tid) pre).inFlight →
      pollAlertCount (runSession r (.resolved tid) sched).alerts = 1) := by
  rw [sessionNoOverlap_accepted r tid sched hchat hcfg] at hno
  have hstart : Settled (sessionStart r) := Or.inl rfl
  have hin0 : (sessionStart r).inFlight ≤ 1 := by simp [sessionStart]
  have hle : pollAlertCount (runSession r (.resolved tid) sched).alerts ≤ 1 := by
    rw [runSession_accepted r tid sched hchat hcfg]
    rcases (run_settled _ sched _ hstart hin0 hno).1 with h | ⟨h, _, _⟩ <;> omega
  refine ⟨hle, ?_, ?_⟩
  · intro hnt
    rw [runSession_accepted r tid sched hchat hcfg, run_pollAlertCount_of_not_terminal _ _ _ hnt]
    rfl
  · intro pre e post hs he hin
    rw [runSession_accepted r tid pre hchat hcfg] at hin
    rw [runSession_accepted r tid sched hchat hcfg] at hle ⊢
    subst hs
    rw [run_append, run_cons] at hle ⊢
    have h1 := step_terminal_pollAlertCount { taskId := tid, isExporting := r.isExporting }
      _ e he hin
    have h2 := run_pollAlertCount_mono { taskId := tid, isExporting := r.isExporting } post
      (step { taskId := tid, isExporting := r.isExporting }
        (run { taskId := tid, isExporting := r.isExporting } (sessionStart r) pre) e)
    omega

/-- Witness for C1: ticks answered one at a time by `in_progress` and then
`completed`, the deadline firing afterwards, give one completion alert. -/
theorem poll_notification_at_most_once_witness :
    pollAlertCount (runSession exampleRender (.resolved (some "r123"))
      [.intervalFires, .pollSettles (.resolved (some (exampleTask "in_progress" 40))),
       .intervalFires, .pollSettles (.resolved (some (exampleTask "completed" 100))),
       .deadlineFires]).alerts = 1 :=
  (poll_notification_at_most_once exampleRender (some "r123")
    [.intervalFires, .pollSettles (.resolved (some (exampleTask "in_progress" 40))),
     .intervalFires, .pollSettles (.resolved (some (exampleTask "completed" 100))),
     .deadlineFires] (by decide) (by decide) (by decide)).2.2
    [.intervalFires, .pollSettles (.resolved (some (exampleTask "in_progress" 40))),
     .intervalFires]
    (.pollSettles (.resolved (some (exampleTask "completed" 100))))
    [.deadlineFires] rfl (by decide) (by decide)

/-! ## C2: the deadline -/

/-- C2. A submission made from the enabled export button captures
`isExporting = false`, so the timeout callback never shows its alert: when no
poll response reports `completed` or `failed`, the session ends without any
notification, whenever the deadline fires. The claim promises exactly one
timeout notification there. -/
theorem timeout_never_notified (r : Render) (tid : Option String) (sched : List Event)
    (hchat : jsTrim r.chatIdentifier ≠ "") (hbtn : r.buttonEnabled = true)
    (hnt : ∀ e ∈ sched, e.isTerminalResponse = false) :
    (runSession r (.resolved tid) sched).alerts = [] := by
  obtain ⟨hexp, hcfg⟩ := (buttonEnabled_iff r).1 hbtn
  rw [runSession_accepted r tid sched hchat hcfg, run_alerts_of_not_terminal _ _ _ hexp hnt]
  rfl

/-- Witness for C2: one poll answered `in_progress`, then the deadline. No alert
is shown, the interval is cleared and `isExporting` is still true. -/
theorem timeout_never_notified_witness :
    (runSession exampleRender (.resolved (some "r123"))
      [.intervalFires, .pollSettles (.resolved (some (exampleTask "in_progress" 40))),
       .deadlineFires]).alerts = [] ∧
    (runSession exampleRender (.resolved (some "r123"))
      [.intervalFires, .pollSettles (.resolved (some (exampleTask "in_progress" 40))),
       .deadlineFires]).isExporting = true ∧
    (runSession exampleRender (.resolved (some "r123"))
      [.intervalFires, .pollSettles (.resolved (some (exampleTask "in_progress" 40))),
       .deadlineFires]).intervalActive = false :=
  ⟨timeout_never_notified exampleRender (some "r123")
      [.intervalFires, .pollSettles (.resolved (some (exampleTask "in_progress" 40))),
       .deadlineFires] (by decide) (by decide) (by decide),
    by decide, by decide⟩

/-! ## C3: a poll request that fails -/

/-- C3, counterexample. After a rejected poll the interval is cleared; with the
polls of ticks 1 to 3 rejected, the tick that would have been answered
`completed` makes no request: only one status request was ever made, no success
notification is delivered and the cached status is still the pending one. -/
theorem poll_failure_stops_polling :
    (runSession exampleRender (.resolved (some "r123"))
      [.intervalFires, .pollSettles .rejected]).intervalActive = false ∧
    runSession exampleRender (.resolved (some "r123"))
      [.intervalFires, .pollSettles .rejected, .intervalFires, .pollSettles .rejected,
       .intervalFires, .pollSettles .rejected,
       .intervalFires, .pollSettles (.resolved (some (exampleTask "completed" 100)))] =
      { isExporting := false, taskStatus := some pendingTask, alerts := [],
        apiCalls := [ApiCall.startExport "@example_channel" none none,
                     ApiCall.getExportStatus (some "r123")],
        intervalActive := false, deadlinePending := true, inFlight := 0, openedLinks := [] } := by
  decide

/-- C3, amended. When a poll request that is under way fails, the cached task
status keeps its last value and no alert is shown, but the polling interval is
cleared and `isExporting` is set to false; from then on the interval makes no
further status request, whatever happens next. -/
theorem poll_failure_ends_polling (cl : Session) (w : World) (hin : 0 < w.inFlight) :
    (step cl w (.pollSettles .rejected)).taskStatus = w.taskStatus ∧
    (step cl w (.pollSettles .rejected)).alerts = w.alerts ∧
    (step cl w (.pollSettles .rejected)).intervalActive = false ∧
    (step cl w (.pollSettles .rejected)).isExporting = false ∧
    ∀ post, (run cl (step cl w (.pollSettles .rejected)) post).apiCalls = w.apiCalls ∧
      (run cl (step cl w (.pollSettles .rejected)) post).intervalActive = false := by
  have hs : step cl w (.pollSettles .rejected) =
      { w with inFlight := w.inFlight - 1, intervalActive := false, isExporting := false } := by
    simp [step, hin, pollCallbackResume, pollCallbackCatch]
  rw [hs]
  refine ⟨rfl, rfl, rfl, rfl, fun post => ?_⟩
  obtain ⟨h1, h2⟩ := run_of_cleared cl post
    { w with inFlight := w.inFlight - 1, intervalActive := false, isExporting := false } rfl
  exact ⟨h2, h1⟩

/-- Witness for C3: the first poll of a session is rejected. -/
theorem poll_failure_ends_polling_witness :
    0 < (runSession exampleRender (.resolved (some "r123")) [.intervalFires]).inFlight ∧
    (step ⟨some "r123", false⟩
      (runSession exampleRender (.resolved (some "r123")) [.intervalFires])
      (.pollSettles .rejected)).intervalActive = false :=
  ⟨by decide,
    (poll_failure_ends_polling ⟨some "r123", false⟩
      (runSession exampleRender (.resolved (some "r123")) [.intervalFires]) (by decide)).2.2.1⟩

/-! ## C4: a `completed` response -/

/-- C4. In a session of an accepted submission, handling a poll response with
status `completed` stores its task as the cached task status, clears the
interval, sets `isExporting` to false and shows the completion alert once; the
interval makes no status request afterwards; `handleDownload` of the next render
opens the download link of that task's id. When this is the first terminal
response and requests did not overlap before it, the completion alert is shown
exactly once in the whole session and the cached task stays the one received. -/
theorem completed_response_handled (api : ApiService) (r : Render) (tid : Option String)
    (pre post : List Event) (task : ExportTask)
    (hchat : jsTrim r.chatIdentifier ≠ "") (hcfg : r.hasConfig = true)
    (hst : task.status = "completed")
    (hin : 0 < (runSession r (.resolved tid) pre).inFlight) :
    let w := runSession r (.resolved tid) pre
    let w1 := runSession r (.resolved tid) (pre ++ [.pollSettles (.resolved (some task))])
    let final := runSession r (.resolved tid) (pre ++ .pollSettles (.resolved (some task)) :: post)
    w1.taskStatus = some task ∧ w1.intervalActive = false ∧ w1.isExporting = false ∧
    w1.alerts = w.alerts ++ [Alert.exportCompleted] ∧
    final.apiCalls = w.apiCalls ∧
    (∀ id, task.id = some id → id ≠ "" →
      (handleDownload api (r.update w1) w1).openedLinks
        = w1.openedLinks ++ [api.getExportDownloadUrl id]) ∧
    ((∀ e ∈ pre, e.isTerminalResponse = false) →
      sessionNoOverlap r (.resolved tid) pre = true →
      final.alerts.count Alert.exportCompleted = 1 ∧ final.taskStatus = some task) := by
  intro w w1 final
  have hw : w = run { taskId := tid, isExporting := r.isExporting } (sessionStart r) pre :=
    runSession_accepted r tid pre hchat hcfg
  have hw1 : w1 = step { taskId := tid, isExporting := r.isExporting } w
      (.pollSettles (.resolved (some task))) := by
    simp only [w1, w, runSession_accepted r tid _ hchat hcfg, run_append, run_cons, run_nil]
  have hfinal : final = run { taskId := tid, isExporting := r.isExporting } w1 post := by
    rw [hw1]
    simp only [final, w, runSession_accepted r tid _ hchat hcfg, run_append, run_cons]
  rw [step_completed _ w task hin hst] at hw1
  have hcl := run_of_cleared { taskId := tid, isExporting := r.isExporting } post w1
    (by rw [hw1])
  refine ⟨by rw [hw1], by rw [hw1], by rw [hw1], by rw [hw1], ?_, ?_, ?_⟩
  · rw [hfinal, hcl.2, hw1]
  · intro id hid hne
    simp [handleDownload, Render.update, hw1, hid, hne]
  · intro hnt hno
    rw [sessionNoOverlap_accepted r tid pre hchat hcfg] at hno
    have hle : w.inFlight ≤ 1 := by
      rw [hw]
      exact run_inFlight_le_of_noOverlap _ pre _ (by simp [sessionStart]) hno
    have hz : w.alerts.count Alert.exportCompleted = 0 := by
      have h1 := count_exportCompleted_le w.alerts
      have h2 := run_pollAlertCount_of_not_terminal
        { taskId := tid, isExporting := r.isExporting } pre (sessionStart r) hnt
      rw [← hw] at h2
      have h3 : pollAlertCount (sessionStart r).alerts = 0 := rfl
      omega
    obtain ⟨h1, h2⟩ := run_of_idle { taskId := tid, isExporting := r.isExporting } post w1
      (by rw [hw1]) (by rw [hw1]; show w.inFlight - 1 = 0; omega)
    rw [hfinal, h1, h2, hw1]
    simp [List.count_append, hz]

/-- Witness for C4: the second poll of a session answers `completed`, and the
deadline fires later. -/
theorem completed_response_handled_witness :
    (runSession exampleRender (.resolved (some "r123"))
      [.intervalFires, .pollSettles (.resolved (some (exampleTask "in_progress" 40))),
       .intervalFires, .pollSettles (.resolved (some (exampleTask "completed" 100))),
       .intervalFires, .deadlineFires]).apiCalls =
    (runSession exampleRender (.resolved (some "r123"))
      [.intervalFires, .pollSettles (.resolved (some (exampleTask "in_progress" 40))),
       .intervalFires]).apiCalls :=
  (completed_response_handled ⟨"http://localhost:8000", some "token"⟩ exampleRender (some "r123")
    [.intervalFires, .pollSettles (.resolved (some (exampleTask "in_progress" 40))),
     .intervalFires]
    [.intervalFires, .deadlineFires] (exampleTask "completed" 100)
    (by decide) (by decide) (by decide) (by decide)).2.2.2.2.1

/-! ## C5: a `failed` response -/

/-- C5. Handling a poll response whose task has status `failed` and error text
`e` clears the interval, sets `isExporting` to false and shows one alert whose
message is the fixed text followed by `e` unchanged; the cached task status is
the task received, with the same `e`. -/
theorem failed_response_handled (cl : Session) (w : World) (task : ExportTask) (e : String)
    (hin : 0 < w.inFlight) (hst : task.status = "failed") (herr : task.error = some e) :
    let w1 := step cl w (.pollSettles (.resolved (some task)))
    w1.intervalActive = false ∧ w1.isExporting = false ∧
    w1.alerts = w.alerts ++ [Alert.exportFailed (some e)] ∧
    w1.alerts.map Alert.text = w.alerts.map Alert.text ++ ["Ошибка экспорта: " ++ e] ∧
    w1.taskStatus = some task ∧ w1.taskStatus.bind ExportTask.error = some e := by
  intro w1
  have hw1 : w1 = _ := step_failed cl w task hin hst
  rw [hw1, herr]
  simp [Alert.text, jsConcat, herr]

/-- Witness for C5: the first poll of a session answers `failed` with the
reason `FloodWait`. -/
theorem failed_response_handled_witness :
    (step ⟨some "r123", false⟩
      (runSession exampleRender (.resolved (some "r123")) [.intervalFires])
      (.pollSettles (.resolved (some
        { id := some "r123", status := "failed", progress := 10, error := some "FloodWait" })))
      ).alerts.map Alert.text = ["Ошибка экспорта: FloodWait"] :=
  (failed_response_handled ⟨some "r123", false⟩
    (runSession exampleRender (.resolved (some "r123")) [.intervalFires])
    { id := some "r123", status := "failed", progress := 10, error := some "FloodWait" }
    "FloodWait" (by decide) rfl rfl).2.2.2.1

/-! ## C6: a `failed` response and the deadline together -/

/-- C6. In a session started from the enabled export button, when a response
with status `failed` and the firing of the deadline timer are handled one right
after the other, both orders end in the same world and the only alert they show
is the failure alert; and no run of the session ever shows the timeout alert. -/
theorem failed_wins_over_deadline (r : Render) (tid : Option String) (pre : List Event)
    (task : ExportTask)
    (hchat : jsTrim r.chatIdentifier ≠ "") (hbtn : r.buttonEnabled = true)
    (hst : task.status = "failed")
    (hin : 0 < (runSession r (.resolved tid) pre).inFlight) :
    runSession r (.resolved tid) (pre ++ [.pollSettles (.resolved (some task)), .deadlineFires])
      = runSession r (.resolved tid)
          (pre ++ [.deadlineFires, .pollSettles (.resolved (some task))]) ∧
    (runSession r (.resolved tid)
        (pre ++ [.pollSettles (.resolved (some task)), .deadlineFires])).alerts
      = (runSession r (.resolved tid) pre).alerts ++ [Alert.exportFailed task.error] ∧
    ∀ sched, Alert.timeoutExceeded ∉ (runSession r (.resolved tid) sched).alerts := by
  obtain ⟨hexp, hcfg⟩ := (buttonEnabled_iff r).1 hbtn
  simp only [runSession_accepted r tid _ hchat hcfg, run_append] at hin ⊢
  generalize run { taskId := tid, isExporting := r.isExporting } (sessionStart r) pre = w at hin ⊢
  have hA : run { taskId := tid, isExporting := r.isExporting } w
      [.pollSettles (.resolved (some task)), .deadlineFires] =
      { w with inFlight := w.inFlight - 1, taskStatus := some task, intervalActive := false,
               isExporting := false, alerts := w.alerts ++ [Alert.exportFailed task.error],
               deadlinePending := false } := by
    rw [run_cons, step_failed _ w task hin hst]
    cases hd : w.deadlinePending <;> simp [run, step, deadlineCallback, hexp, hd]
  have hB : run { taskId := tid, isExporting := r.isExporting } w
      [.deadlineFires, .pollSettles (.resolved (some task))] =
      { w with inFlight := w.inFlight - 1, taskStatus := some task, intervalActive := false,
               isExporting := false, alerts := w.alerts ++ [Alert.exportFailed task.error],
               deadlinePending := false } := by
    rw [run_cons]
    cases hd : w.deadlinePending
    · have h1 : step { taskId := tid, isExporting := r.isExporting } w .deadlineFires = w := by
        simp [step, hd]
      rw [h1, run_cons, step_failed _ w task hin hst, run_nil, hd]
    · have h1 : step { taskId := tid, isExporting := r.isExporting } w .deadlineFires =
          { w with deadlinePending := false, intervalActive := false } := by
        simp [step, hd, deadlineCallback, hexp]
      rw [h1, run_cons, step_failed _ _ task (by simpa using hin) hst, run_nil]
  refine ⟨by rw [hA, hB], by rw [hA], fun sched => ?_⟩
  exact run_no_timeout _ sched _ hexp (by simp [sessionStart])

/-- Witness for C6: the first poll is still under way when the deadline fires,
and answers `failed`. -/
theorem failed_wins_over_deadline_witness :
    (runSession exampleRender (.resolved (some "r123"))
      ([.intervalFires] ++ [.pollSettles (.resolved (some
        { id := some "r123", status := "failed", progress := 10, error := some "FloodWait" })),
        .deadlineFires])).alerts
      = (runSession exampleRender (.resolved (some "r123")) [.intervalFires]).alerts
          ++ [Alert.exportFailed (some "FloodWait")] :=
  (failed_wins_over_deadline exampleRender (some "r123") [.intervalFires]
    { id := some "r123", status := "failed", progress := 10, error := some "FloodWait" }
    (by decide) (by decide) rfl (by decide)).2.1

/-! ## C7: the chat identifier check -/

/-- C7. When the chat identifier is empty or made of white space only,
`handleExport` shows the validation alert and does nothing else: the state
variables, the timers and the requests made are as before (no call of
`startExport`), and no poll session exists, so no status request is ever made. -/
theorem blank_chat_identifier_only_alerts (r : Render) (o : StartOutcome) (w : World)
    (hblank : ∀ c ∈ r.chatIdentifier.toList, jsIsWhiteSpace c = true) :
    handleExport r o w = ({ w with alerts := w.alerts ++ [Alert.enterChatIdentifier] }, none) ∧
    (handleExportBegin r w).2 = false ∧
    Alert.enterChatIdentifier.text = "Введите идентификатор чата" := by
  have ht := jsTrim_of_all_whiteSpace r.chatIdentifier hblank
  simp [handleExport, handleExportBegin, ht, Alert.text]

/-- Witness for C7: a chat identifier of a blank, a tab and a no-break space. -/
theorem blank_chat_identifier_only_alerts_witness :
    handleExport { exampleRender with chatIdentifier := " \t\u00a0" } (.resolved (some "r123"))
        (World.ofRender { exampleRender with chatIdentifier := " \t\u00a0" })
      = ({ World.ofRender { exampleRender with chatIdentifier := " \t\u00a0" } with
            alerts := [Alert.enterChatIdentifier] }, none) :=
  (blank_chat_identifier_only_alerts { exampleRender with chatIdentifier := " \t\u00a0" }
    (.resolved (some "r123"))
    (World.ofRender { exampleRender with chatIdentifier := " \t\u00a0" }) (by decide)).1

/-! ## C8: the order of the dates -/

/-- C8, counterexample. With a chat identifier and a start date later than the
end date (the values of date inputs have the form `YYYY-MM-DD`, so that the
order of the dates is the order of the texts), `handleExport` shows no
validation alert and calls `startExport` with both dates. -/
theorem reversed_dates_are_submitted :
    reversedDatesRender.dateTo.toList < reversedDatesRender.dateFrom.toList ∧
    (handleExportBegin reversedDatesRender (World.ofRender reversedDatesRender)).2 = true ∧
    (handleExport reversedDatesRender (.resolved (some "r123"))
        (World.ofRender reversedDatesRender)).1.alerts = [] ∧
    (handleExport reversedDatesRender (.resolved (some "r123"))
        (World.ofRender reversedDatesRender)).1.apiCalls =
      [ApiCall.startExport "@example_channel" (some "2024-02-01") (some "2024-01-01")] := by
  decide

/-- C8, amended. With a chat identifier that is not blank and the Telegram keys
configured, `handleExport` checks nothing about the dates: whatever they are and
in whatever order, it shows no alert and calls `startExport` once, with the chat
identifier and the two dates as entered (an empty date as `null`). -/
theorem dates_are_not_validated (r : Render) (w : World)
    (hchat : jsTrim r.chatIdentifier ≠ "") (hcfg : r.hasConfig = true) :
    handleExportBegin r w =
      ({ w with
          isExporting := true
          taskStatus := some pendingTask
          apiCalls := w.apiCalls ++
            [ApiCall.startExport r.chatIdentifier (orNull r.dateFrom) (orNull r.dateTo)] },
        true) := by
  simp [handleExportBegin, hchat, hcfg]

/-- Witness for C8: the dates of `reversedDatesRender`. -/
theorem dates_are_not_validated_witness :
    handleExportBegin reversedDatesRender (World.ofRender reversedDatesRender) =
      ({ World.ofRender reversedDatesRender with
          isExporting := true
          taskStatus := some pendingTask
          apiCalls :=
            [ApiCall.startExport "@example_channel" (some "2024-02-01") (some "2024-01-01")] },
        true) :=
  dates_are_not_validated reversedDatesRender (World.ofRender reversedDatesRender)
    (by decide) (by decide)

/-! ## C9: a submission that the backend rejects -/

/-- C9. When a submission passes both checks and `startExport` rejects with
message `m`, `startExport` has been called once, no timer is set and no poll
session exists (so no status request is made, whatever happens later),
`isExporting` is false again, and the one alert shown is the fixed text followed
by `m`. -/
theorem start_failure_surfaced (r : Render) (m : String) (sched : List Event)
    (hchat : jsTrim r.chatIdentifier ≠ "") (hcfg : r.hasConfig = true) :
    (handleExport r (.rejected (some m)) (World.ofRender r)).2 = none ∧
    (runSession r (.rejected (some m)) sched).apiCalls =
      [ApiCall.startExport r.chatIdentifier (orNull r.dateFrom) (orNull r.dateTo)] ∧
    (runSession r (.rejected (some m)) sched).intervalActive = false ∧
    (runSession r (.rejected (some m)) sched).deadlinePending = false ∧
    (runSession r (.rejected (some m)) sched).inFlight = 0 ∧
    (runSession r (.rejected (some m)) sched).isExporting = false ∧
    (runSession r (.rejected (some m)) sched).alerts.map Alert.text = ["Ошибка: " ++ m] := by
  simp [runSession, handleExport, handleExportBegin, handleExportResume, hchat, hcfg,
    World.ofRender, Alert.text, jsConcat]

/-- Witness for C9: the backend answers with status code 401. -/
theorem start_failure_surfaced_witness :
    (runSession exampleRender (.rejected (some "Request failed with status code 401"))
      [.intervalFires, .deadlineFires]).alerts.map Alert.text
      = ["Ошибка: Request failed with status code 401"] :=
  (start_failure_surfaced exampleRender "Request failed with status code 401"
    [.intervalFires, .deadlineFires] (by decide) (by decide)).2.2.2.2.2.2

/-! ## C10: the cached task status -/

/-- C10. The cached task status is `{ status: 'pending', progress: 0 }` from
the moment `handleExport` calls `startExport`, and in the session of an accepted
submission it stays so as long as no poll response has arrived;
when a response carrying a task is handled, the cached task status is that task
(whatever its progress, lower than before or not) until the next response. In
the scenario of four polls answered `pending`, `in_progress` 40, `in_progress`
90 and `completed`, the cached tasks after the responses are those four, with
progress 0, 40, 90 for the three that are not terminal, and exactly one alert is
shown, the completion alert. -/
theorem cached_status_is_latest (r : Render) (tid : Option String)
    (hchat : jsTrim r.chatIdentifier ≠ "") (hcfg : r.hasConfig = true) :
    (handleExportBegin r (World.ofRender r)).1.taskStatus = some pendingTask ∧
    (∀ sched, (∀ e ∈ sched, e.isResponse = false) →
      (runSession r (.resolved tid) sched).taskStatus = some pendingTask) ∧
    (∀ pre task mid, 0 < (runSession r (.resolved tid) pre).inFlight →
      (∀ e ∈ mid, e.isResponse = false) →
      (runSession r (.resolved tid)
        (pre ++ .pollSettles (.resolved (some task)) :: mid)).taskStatus = some task) ∧
    sessionStatusAfterResponses r (.resolved tid) scenarioSchedule =
      [some (exampleTask "pending" 0), some (exampleTask "in_progress" 40),
       some (exampleTask "in_progress" 90), some (exampleTask "completed" 100)] ∧
    (((sessionStatusAfterResponses r (.resolved tid) scenarioSchedule).filterMap id).filter
        (fun t => t.status ≠ "completed" && t.status ≠ "failed")).map ExportTask.progress
      = [0, 40, 90] ∧
    (runSession r (.resolved tid) scenarioSchedule).alerts = [Alert.exportCompleted] := by
  have htrace : sessionStatusAfterResponses r (.resolved tid) scenarioSchedule =
      [some (exampleTask "pending" 0), some (exampleTask "in_progress" 40),
       some (exampleTask "in_progress" 90), some (exampleTask "completed" 100)] := by
    simp only [sessionStatusAfterResponses, handleExport_accepted r tid _ hchat hcfg]
    rfl
  refine ⟨?_, ?_, ?_, htrace, ?_, ?_⟩
  · simp [handleExportBegin, hchat, hcfg]
  · intro sched h
    rw [runSession_accepted r tid sched hchat hcfg, run_taskStatus_of_not_response _ _ _ h]
    rfl
  · intro pre task mid hin h
    rw [runSession_accepted r tid pre hchat hcfg] at hin
    rw [runSession_accepted r tid _ hchat hcfg, run_append, run_cons,
      run_taskStatus_of_not_response _ _ _ h, step_taskStatus_of_response _ _ task hin]
  · rw [htrace]
    decide
  · rw [runSession_accepted r tid _ hchat hcfg]
    rfl

/-- Witness for C10: a response with progress 40 handled after one with
progress 90 leaves 40 in the cache. -/
theorem cached_status_is_latest_witness :
    (runSession exampleRender (.resolved (some "r123"))
      ([.intervalFires, .pollSettles (.resolved (some (exampleTask "in_progress" 90))),
        .intervalFires]
        ++ .pollSettles (.resolved (some (exampleTask "in_progress" 40)))
          :: [.deadlineFires])).taskStatus
      = some (exampleTask "in_progress" 40) :=
  (cached_status_is_latest exampleRender (some "r123") (by decide) (by decide)).2.2.1
    [.intervalFires, .pollSettles (.resolved (some (exampleTask "in_progress" 90))),
     .intervalFires]
    (exampleTask "in_progress" 40) [.deadlineFires] (by decide) (by decide)

/-! ## C11: the download link -/

/-- C11. The link built by `getExportDownloadUrl` for base URL `b`, token `t`
and task id `j` is `b`, `/export/download/`, `j`, `?init_data=` and the encoded
`t`, in this order; it depends on `b`, `t` and `j` only (equal inputs give equal
links); and `handleDownload`, which builds it, makes no request and sets no
state or timer: it only passes the link to `openLink`. -/
theorem getExportDownloadUrl_is_pure (b t j : String) :
    ApiService.getExportDownloadUrl { baseURL := b, initData := some t } j
      = b ++ "/export/download/" ++ j ++ "?init_data=" ++ encodeURIComponent t ∧
    (∀ api1 api2 : ApiService, api1.baseURL = b → api2.baseURL = b →
      api1.initData = some t → api2.initData = some t →
      api1.getExportDownloadUrl j = api2.getExportDownloadUrl j) ∧
    (∀ (r : Render) (w : World),
      handleDownload { baseURL := b, initData := some t } r w = w ∨
      handleDownload { baseURL := b, initData := some t } r w =
        { w with openedLinks := w.openedLinks ++
            [ApiService.getExportDownloadUrl { baseURL := b, initData := some t }
              (((r.taskStatus.bind ExportTask.id).getD ""))] }) ∧
    ApiService.getExportDownloadUrl
        { baseURL := "http://localhost:8000", initData := some "user=a b&hash=1" } "r123"
      = "http://localhost:8000/export/download/r123?init_data=user%3Da%20b%26hash%3D1" := by
  refine ⟨rfl, ?_, ?_, by decide⟩
  · intro api1 api2 h1 h2 h3 h4
    simp [ApiService.getExportDownloadUrl, h1, h2, h3, h4]
  · intro r w
    cases hts : r.taskStatus with
    | none => left; simp [handleDownload, hts]
    | some task =>
      cases hid : task.id with
      | none => left; simp [handleDownload, hts, hid]
      | some id =>
        by_cases hne : id = ""
        · left; simp [handleDownload, hts, hid, hne]
        · right; simp [handleDownload, hts, hid, hne]

/-! ## C12: requests under way -/

/-- C12, counterexample. When the interval fires twice before the first
response arrives, two status requests are under way at once. -/
theorem two_polls_in_flight :
    (runSession exampleRender (.resolved (some "r123"))
      [.intervalFires, .intervalFires]).inFlight = 2 ∧
    (runSession exampleRender (.resolved (some "r123"))
      [.intervalFires, .intervalFires]).apiCalls =
      [ApiCall.startExport "@example_channel" none none,
       ApiCall.getExportStatus (some "r123"), ApiCall.getExportStatus (some "r123")] := by
  decide

/-- C12, amended. In the session of an accepted submission the interval makes
one status request on every tick until it is cleared, whether or not earlier
requests have settled: at any point of any run of the session, if the interval
is still set then `n` further ticks make `n` further requests for the task, all
added to those already under way, and if it is cleared they change nothing. In
particular `n` ticks right after the submission leave `n` requests under way.
At most one request is under way at any time when every tick is answered
(resolved or rejected) before the next tick. In any world at all, a tick of the
interval that is set makes one more request, whatever is under way. -/
theorem interval_polls_on_every_tick (r : Render) (tid : Option String) (pre : List Event)
    (n : Nat) (os : List PollOutcome)
    (hchat : jsTrim r.chatIdentifier ≠ "") (hcfg : r.hasConfig = true) :
    ((runSession r (.resolved tid) pre).intervalActive = true →
      (runSession r (.resolved tid) (pre ++ List.replicate n .intervalFires)).inFlight
        = (runSession r (.resolved tid) pre).inFlight + n ∧
      (runSession r (.resolved tid) (pre ++ List.replicate n .intervalFires)).apiCalls
        = (runSession r (.resolved tid) pre).apiCalls
            ++ List.replicate n (ApiCall.getExportStatus tid) ∧
      (runSession r (.resolved tid) (pre ++ List.replicate n .intervalFires)).intervalActive
        = true) ∧
    ((runSession r (.resolved tid) pre).intervalActive = false →
      runSession r (.resolved tid) (pre ++ List.replicate n .intervalFires)
        = runSession r (.resolved tid) pre) ∧
    (runSession r (.resolved tid) (List.replicate n .intervalFires)).inFlight = n ∧
    (runSession r (.resolved tid) (List.replicate n .intervalFires)).apiCalls =
      ApiCall.startExport r.chatIdentifier (orNull r.dateFrom) (orNull r.dateTo)
        :: List.replicate n (ApiCall.getExportStatus tid) ∧
    sessionNoOverlap r (.resolved tid) (sequentialSchedule os) = true ∧
    (∀ (cl : Session) (w : World), w.intervalActive = true →
      step cl w .intervalFires =
        { w with apiCalls := w.apiCalls ++ [ApiCall.getExportStatus cl.taskId],
                 inFlight := w.inFlight + 1 }) := by
  simp only [runSession_accepted r tid _ hchat hcfg, sessionNoOverlap_accepted r tid _ hchat hcfg,
    run_append]
  refine ⟨fun h => ?_, fun h => ?_, ?_, ?_, ?_, fun cl w h => by simp [step, h, pollCallbackBegin]⟩
  · obtain ⟨h1, h2, h3⟩ := run_ticks { taskId := tid, isExporting := r.isExporting } n _ h
    exact ⟨h1, h2, h3⟩
  · exact run_ticks_of_cleared _ n _ h
  · rw [(run_ticks _ n (sessionStart r) rfl).1]
    simp [sessionStart]
  · rw [(run_ticks _ n (sessionStart r) rfl).2.1]
    rfl
  · exact noOverlap_sequential _ os (sessionStart r) rfl

/-- Witness for C12: after a first poll answered `in_progress`, three ticks
without a response leave three requests under way. -/
theorem interval_polls_on_every_tick_witness :
    (runSession exampleRender (.resolved (some "r123"))
      ([.intervalFires, .pollSettles (.resolved (some (exampleTask "in_progress" 40)))]
        ++ List.replicate 3 .intervalFires)).inFlight
      = (runSession exampleRender (.resolved (some "r123"))
          [.intervalFires,
           .pollSettles (.resolved (some (exampleTask "in_progress" 40)))]).inFlight + 3 :=
  ((interval_polls_on_every_tick exampleRender (some "r123")
    [.intervalFires, .pollSettles (.resolved (some (exampleTask "in_progress" 40)))] 3
    [.resolved (some (exampleTask "in_progress" 40)), .rejected] (by decide) (by decide)).1
    (by decide)).1

/-! ## C13: cancelling -/

/-- C13, counterexample. In a running poll session no handler of the export tab
acts as a cancel operation: after `handleDownload`, and after `handleExport`
whether `startExport` resolves or rejects, the interval and the deadline timer
are still set, and the `completed` answer of the request under way still shows
the completion alert. -/
theorem no_handler_cancels :
    runningWorld.intervalActive = true ∧ runningWorld.deadlinePending = true ∧
    runningWorld.alerts = [] ∧
    (∀ h ∈ [Handler.handleDownload, Handler.handleExport (.resolved (some "r124")),
            Handler.handleExport (.rejected (some "Network Error"))],
      (applyHandler ⟨"http://localhost:8000", some "token"⟩
        (exampleRender.update runningWorld) runningWorld h).intervalActive = true ∧
      (applyHandler ⟨"http://localhost:8000", some "token"⟩
        (exampleRender.update runningWorld) runningWorld h).deadlinePending = true ∧
      Alert.exportCompleted ∈ (step ⟨some "r123", false⟩
        (applyHandler ⟨"http://localhost:8000", some "token"⟩
          (exampleRender.update runningWorld) runningWorld h)
        (.pollSettles (.resolved (some (exampleTask "completed" 100))))).alerts) := by
  decide

/-- C13, amended. The export tab offers no cancel operation: its handlers are
`handleExport` and `handleDownload`, and neither stops a running poll session.
After either of them the interval and the deadline timer are still set, as many
requests are under way as before, and a `completed` answer to a request under
way still shows the completion alert. -/
theorem no_handler_stops_the_timers (api : ApiService) (r : Render) (w : World) (h : Handler)
    (hint : w.intervalActive = true) (hdl : w.deadlinePending = true) :
    (applyHandler api r w h).intervalActive = true ∧
    (applyHandler api r w h).deadlinePending = true ∧
    (applyHandler api r w h).inFlight = w.inFlight ∧
    (∀ (cl : Session) (task : ExportTask), 0 < w.inFlight → task.status = "completed" →
      (step cl (applyHandler api r w h) (.pollSettles (.resolved (some task)))).alerts
        = (applyHandler api r w h).alerts ++ [Alert.exportCompleted]) := by
  have key : (applyHandler api r w h).intervalActive = true ∧
      (applyHandler api r w h).deadlinePending = true ∧
      (applyHandler api r w h).inFlight = w.inFlight := by
    cases h with
    | handleDownload =>
      simp only [applyHandler, handleDownload]
      split <;> [split <;> [split; skip]; skip] <;> simp [hint, hdl]
    | handleExport o =>
      by_cases hc : jsTrim r.chatIdentifier = ""
      · simp [applyHandler, handleExport, handleExportBegin, hc, hint, hdl]
      · cases hcfg : r.hasConfig
        · simp [applyHandler, handleExport, handleExportBegin, hc, hcfg, hint, hdl]
        · cases o <;>
            simp [applyHandler, handleExport, handleExportBegin, handleExportResume, hc, hcfg,
              hint, hdl]
  refine ⟨key.1, key.2.1, key.2.2, fun cl task hin hst => ?_⟩
  rw [step_completed cl _ task (by rw [key.2.2]; exact hin) hst]

/-- Witness for C13: `handleDownload` in the running session. -/
theorem no_handler_stops_the_timers_witness :
    (applyHandler ⟨"http://localhost:8000", some "token"⟩ (exampleRender.update runningWorld)
      runningWorld Handler.handleDownload).intervalActive = true :=
  (no_handler_stops_the_timers ⟨"http://localhost:8000", some "token"⟩
    (exampleRender.update runningWorld) runningWorld Handler.handleDownload
    (by decide) (by decide)).1

/-! ## C14: the request interceptor -/

/-- C14. With the token `token` set, the config of `getExportStatus`, a request
without a body, comes out of the interceptor as it went in: its `data` is still
missing and holds no `init_data`. The claim, and the comment of line 18, say
that the interceptor adds the token to every request. -/
theorem interceptor_skips_requests_without_body :
    (ApiService.interceptor
      (ApiService.setInitData ⟨"http://localhost:8000", none⟩ "token")
      (ApiService.getExportStatusConfig
        (ApiService.setInitData ⟨"http://localhost:8000", none⟩ "token") (some "r123"))).data
      = none ∧
    (ApiService.interceptor
      (ApiService.setInitData ⟨"http://localhost:8000", none⟩ "token")
      (ApiService.getExportStatusConfig
        (ApiService.setInitData ⟨"http://localhost:8000", none⟩ "token")
        (some "r123"))).dataHasInitData "token" = false := by
  decide

/-- What the interceptor does, behind the finding of C14. With a non-empty
token set via `setInitData`, the token is added to every request that has a
body: the returned `data` has `init_data` equal to the token and every other
property as before, and the rest of the config is unchanged. A config without a
body is returned unchanged; the request of `getExportStatus` is of this kind and
carries the token in its query only. -/
theorem interceptor_adds_token_to_bodies (api : ApiService) (token : String)
    (config : RequestConfig) (htoken : token ≠ "") :
    (∀ body, config.data = some body →
      ((api.setInitData token).interceptor config).dataHasInitData token = true ∧
      ((api.setInitData token).interceptor config).data
        = some (objSet body "init_data" (some token)) ∧
      (∀ k, k ≠ "init_data" →
        objGet (objSet body "init_data" (some token)) k = objGet body k)) ∧
    (config.data = none → (api.setInitData token).interceptor config = config) ∧
    ((api.setInitData token).interceptor config).method = config.method ∧
    ((api.setInitData token).interceptor config).url = config.url ∧
    ((api.setInitData token).interceptor config).params = config.params ∧
    (∀ taskId, ((api.setInitData token).getExportStatusConfig taskId).data = none ∧
      objGet ((api.setInitData token).getExportStatusConfig taskId).params "init_data"
        = some (some token)) := by
  refine ⟨fun body hb => ?_, fun hn => ?_, ?_, ?_, ?_, fun taskId => ?_⟩
  · have hi : ((api.setInitData token).interceptor config).data
        = some (objSet body "init_data" (some token)) := by
      simp [ApiService.interceptor, ApiService.setInitData, hb, htoken]
    refine ⟨?_, hi, fun k hk => objGet_objSet_ne body "init_data" k (some token) (Ne.symm hk)⟩
    simp [RequestConfig.dataHasInitData, hi, objGet_objSet_self]
  · simp [ApiService.interceptor, ApiService.setInitData, hn]
  · cases hd : config.data <;>
      simp [ApiService.interceptor, ApiService.setInitData, hd, htoken]
  · cases hd : config.data <;>
      simp [ApiService.interceptor, ApiService.setInitData, hd, htoken]
  · cases hd : config.data <;>
      simp [ApiService.interceptor, ApiService.setInitData, hd, htoken]
  · simp [ApiService.getExportStatusConfig, ApiService.setInitData, objGet]

/-- An instance of the previous theorem: the request of `startExport`, made
before the token was stored, gets the token from the interceptor. -/
theorem interceptor_adds_token_to_bodies_witness :
    ((ApiService.setInitData ⟨"http://localhost:8000", none⟩ "token").interceptor
      (ApiService.startExportConfig ⟨"http://localhost:8000", none⟩ "@example_channel"
        none none)).data
      = some [("init_data", some "token"), ("chat_identifier", some "@example_channel"),
              ("date_from", none), ("date_to", none)] :=
  ((interceptor_adds_token_to_bodies ⟨"http://localhost:8000", none⟩ "token"
    (ApiService.startExportConfig ⟨"http://localhost:8000", none⟩ "@example_channel" none none)
    (by decide)).1 _ rfl).2.1

/-! ## C15: what `handleSave` sends -/

/-- C15. After the form has been filled from the loaded settings and left
untouched, `handleSave` passes `telegram_api_id` and `telegram_phone` to
`onUpdate` although both fields equal the loaded values. The claim, and the
comment of line 154, say that only changed fields are sent. -/
theorem handleSave_sends_unchanged_fields :
    (settingsEffect (some exampleSettings) SettingsForm.initial).telegramApiId
      = exampleSettings.telegram_api_id.getD "" ∧
    (settingsEffect (some exampleSettings) SettingsForm.initial).telegramPhone
      = exampleSettings.telegram_phone.getD "" ∧
    (handleSave (settingsEffect (some exampleSettings) SettingsForm.initial)).1
      = [("telegram_api_id", "1234567"), ("telegram_phone", "+79991234567")] := by
  decide

/-! ## C16: secrets in the settings form -/

/-- C16. After the form is synchronised with a settings object, the API-hash
field and the Claude-API-key field are empty, and the four fields depend on
`telegram_api_id` and `telegram_phone` only: two settings objects that agree on
these two give the same fields, whatever else they hold and whatever the fields
were before. -/
theorem secrets_not_shown (s1 s2 : Settings) (f1 f2 : SettingsForm)
    (hid : s1.telegram_api_id = s2.telegram_api_id)
    (hphone : s1.telegram_phone = s2.telegram_phone) :
    (settingsEffect (some s1) f1).telegramApiHash = "" ∧
    (settingsEffect (some s1) f1).claudeApiKey = "" ∧
    (settingsEffect (some s1) f1).telegramApiId = (settingsEffect (some s2) f2).telegramApiId ∧
    (settingsEffect (some s1) f1).telegramApiHash
      = (settingsEffect (some s2) f2).telegramApiHash ∧
    (settingsEffect (some s1) f1).telegramPhone = (settingsEffect (some s2) f2).telegramPhone ∧
    (settingsEffect (some s1) f1).claudeApiKey = (settingsEffect (some s2) f2).claudeApiKey ∧
    settingsEffect (some s1) f1 = settingsEffect (some s2) f1 := by
  simp [settingsEffect, hid, hphone]

/-- Witness for C16: the stored secrets are replaced by others, and the form
held typed text before. -/
theorem secrets_not_shown_witness :
    settingsEffect (some exampleSettings)
        { SettingsForm.initial with telegramApiHash := "abcdef", claudeApiKey := "sk-ant" }
      = settingsEffect
          (some { exampleSettings with
            has_claude_config := false
            others := [("telegram_api_hash", some "other"), ("claude_api_key", none)] })
          { SettingsForm.initial with telegramApiHash := "abcdef", claudeApiKey := "sk-ant" } :=
  (secrets_not_shown exampleSettings
    { exampleSettings with
      has_claude_config := false
      others := [("telegram_api_hash", some "other"), ("claude_api_key", none)] }
    { SettingsForm.initial with telegramApiHash := "abcdef", claudeApiKey := "sk-ant" }
    SettingsForm.initial rfl rfl).2.2.2.2.2.2

/-! ## C17: choosing a file -/

/-- C17. The handler `handleFileSelect` accepts a candidate exactly when a file
is there and its name ends with `.csv` (in this spelling): then `selectedFile`
becomes the file and `analysisResult` is reset, and no alert is shown; otherwise
both state variables are left as they were and the alert asking for a CSV file
is shown. When the file selected so far, if any, is a CSV file, the state holds
the candidate with a reset result if and only if the candidate is accepted. -/
theorem handleFileSelect_accepts_only_csv (file : Option File) (w : AnalysisWorld) :
    ((∃ f, file = some f ∧ jsEndsWith f.name ".csv" = true) →
      handleFileSelect file w = { w with selectedFile := file, analysisResult := none }) ∧
    ((¬ ∃ f, file = some f ∧ jsEndsWith f.name ".csv" = true) →
      handleFileSelect file w
        = { w with alerts := w.alerts ++ ["Пожалуйста, выберите CSV файл"] }) ∧
    ((handleFileSelect file w).alerts = w.alerts ↔
      ∃ f, file = some f ∧ jsEndsWith f.name ".csv" = true) ∧
    ((∀ g, w.selectedFile = some g → jsEndsWith g.name ".csv" = true) →
      ∀ f, file = some f →
        (((handleFileSelect file w).selectedFile = some f ∧
            (handleFileSelect file w).analysisResult = none) ↔
          jsEndsWith f.name ".csv" = true)) ∧
    jsEndsWith "messages.csv" ".csv" = true ∧ jsEndsWith "messages.CSV" ".csv" = false ∧
    jsEndsWith "messages.csv.txt" ".csv" = false := by
  refine ⟨?_, ?_, ?_, ?_, by decide, by decide, by decide⟩
  · rintro ⟨f, rfl, hf⟩
    simp [handleFileSelect, hf]
  · intro h
    cases file with
    | none => rfl
    | some f =>
      have hf : jsEndsWith f.name ".csv" = false := by
        cases hc : jsEndsWith f.name ".csv"
        · rfl
        · exact absurd ⟨f, rfl, hc⟩ h
      simp [handleFileSelect, hf]
  · cases file with
    | none => simp [handleFileSelect]
    | some f => cases hc : jsEndsWith f.name ".csv" <;> simp [handleFileSelect, hc]
  · intro hinv f hf
    subst hf
    cases hc : jsEndsWith f.name ".csv"
    · simp only [handleFileSelect, hc]
      constructor
      · rintro ⟨h1, _⟩
        have := hinv f h1
        rw [hc] at this
        exact this
      · intro h
        cases h
    · simp [handleFileSelect, hc]

/-- Witness for C17: a spreadsheet is offered while a CSV file is selected. -/
theorem handleFileSelect_accepts_only_csv_witness :
    handleFileSelect (some ⟨"report.xlsx", 2048⟩)
        { selectedFile := some ⟨"messages.csv", 1536⟩, analysisResult := none, alerts := [] }
      = { selectedFile := some ⟨"messages.csv", 1536⟩, analysisResult := none,
          alerts := ["Пожалуйста, выберите CSV файл"] } :=
  (handleFileSelect_accepts_only_csv (some ⟨"report.xlsx", 2048⟩)
    { selectedFile := some ⟨"messages.csv", 1536⟩, analysisResult := none, alerts := [] }).2.1
    (by decide)

/-! ## C18: the size of the file -/

/-- C18, counterexample. For 1048575 bytes the unit is KB and the number printed
is `1024.0`, which is not less than 1024.0. -/
theorem formatFileSize_prints_1024_KB :
    formatFileSize 1048575 = "1024.0 KB" ∧ tenths 1048575 1024 = 10240 ∧
    formatFileSize 1048525 = "1024.0 KB" ∧ formatFileSize 1048524 = "1023.9 KB" := by
  decide

/-- C18, amended. The unit is chosen by exact thresholds: the result is the
decimal numeral of `n` followed by ` B` exactly when `n < 1024`, it ends in
` KB` exactly when `1024 ≤ n < 1048576`, and in ` MB` exactly when
`1048576 ≤ n`. In the KB case the number printed is `n / 1024` rounded to one
decimal; it is at most 1024.0, and less than 1024.0 exactly when `n < 1048525`. -/
theorem formatFileSize_units (n : Nat) :
    (formatFileSize n = toString n ++ " B" ↔ n < 1024) ∧
    (jsEndsWith (formatFileSize n) " KB" = true ↔ 1024 ≤ n ∧ n < 1048576) ∧
    (jsEndsWith (formatFileSize n) " MB" = true ↔ 1048576 ≤ n) ∧
    (1024 ≤ n → n < 1048576 →
      formatFileSize n
        = toString (tenths n 1024 / 10) ++ "." ++ toString (tenths n 1024 % 10) ++ " KB" ∧
      tenths n 1024 ≤ 10240 ∧ (tenths n 1024 < 10240 ↔ n < 1048525)) := by
  obtain ⟨hB, hK, hM⟩ := formatFileSize_cases n
  refine ⟨?_, ?_, ?_, ?_⟩
  · constructor
    · intro h
      by_contra hn
      by_cases h2 : n < 1048576
      · rw [hK (by omega) h2] at h
        exact (append_unit_ne_append_B _ _).1 h
      · rw [hM (by omega)] at h
        exact (append_unit_ne_append_B _ _).2 h
    · exact hB
  · by_cases h1 : n < 1024
    · rw [hB h1, (jsEndsWith_append_B _).1]
      constructor
      · intro h; cases h
      · intro h; omega
    · by_cases h2 : n < 1048576
      · rw [hK (by omega) h2, (jsEndsWith_append_KB _).1]
        exact ⟨fun _ => ⟨by omega, h2⟩, fun _ => rfl⟩
      · rw [hM (by omega), (jsEndsWith_append_MB _).2]
        constructor
        · intro h; cases h
        · intro h; omega
  · by_cases h1 : n < 1024
    · rw [hB h1, (jsEndsWith_append_B _).2]
      constructor
      · intro h; cases h
      · intro h; omega
    · by_cases h2 : n < 1048576
      · rw [hK (by omega) h2, (jsEndsWith_append_KB _).2]
        constructor
        · intro h; cases h
        · intro h; omega
      · rw [hM (by omega), (jsEndsWith_append_MB _).1]
        exact ⟨fun _ => by omega, fun _ => rfl⟩
  · intro h1 h2
    refine ⟨hK h1 h2, ?_, ?_⟩
    · simp only [tenths]; omega
    · simp only [tenths]; omega

/-- Witness for C18: one and a half kilobytes. -/
theorem formatFileSize_units_witness : formatFileSize 1536 = "1.5 KB" :=
  ((formatFileSize_units 1536).2.2.2 (by decide) (by decide)).1

end TelegramAnalyzer
